import Mathlib

/-!
Verification development for the libfliusb repository (vendor header
`src/clib/libfli.h` plus the example program `src/clib/test.c`).

The repository contains no implementation translation units: the header only
declares the API (function signatures, constants, opaque handle types) and
`test.c` exercises it.  Definitions below therefore fall into two groups:

* faithful embeddings of what is present in `src/` (the numeric constants of
  `libfli.h`, the return-type shape of every `LIBFLIAPI` declaration, and the
  complete control flow of `test.c`), and
* executable models of the missing implementation, built from the
  specification's words (session manager, per-device lock, exposure state
  machine, device registry); each such definition carries a doc comment
  starting with `Modelled from the spec:`.
-/

namespace LibFliUsb

/-! ### Constants from src/clib/libfli.h (lines 86-187) -/

def FLIDOMAIN_NONE : Nat := 0x00

def FLIDOMAIN_PARALLEL_PORT : Nat := 0x01

def FLIDOMAIN_USB : Nat := 0x02

def FLIDOMAIN_SERIAL : Nat := 0x03

def FLIDOMAIN_INET : Nat := 0x04

def FLIDOMAIN_SERIAL_19200 : Nat := 0x05

def FLIDOMAIN_SERIAL_1200 : Nat := 0x06

def FLIDOMAIN_INTERFACE_MASK : Nat := 0x000f

def FLIDEVICE_NONE : Nat := 0x000

def FLIDEVICE_CAMERA : Nat := 0x100

def FLIDEVICE_FILTERWHEEL : Nat := 0x200

def FLIDEVICE_FOCUSER : Nat := 0x300

def FLIDEVICE_HS_FILTERWHEEL : Nat := 0x0400

def FLIDEVICE_RAW : Nat := 0x0f00

def FLIDOMAIN_DEVICE_MASK : Nat := 0x0f00

def FLIDEVICE_ENUMERATE_BY_CONNECTION : Nat := 0x8000

def FLIDEVICE_ENUMERATE_BY_SERIAL : Nat := 0x8000

def FLIDOMAIN_OPTIONS_MASK : Nat := 0xf000

def FLI_FRAME_TYPE_NORMAL : Nat := 0

def FLI_FRAME_TYPE_DARK : Nat := 1

def FLI_MODE_8BIT : Nat := 0

def FLI_MODE_16BIT : Nat := 1

/-- The interface-domain constant family of `libfli.h` (lines 91-116),
`FLIDOMAIN_PARALLEL_PORT` through `FLIDOMAIN_SERIAL_1200`. -/
def interfaceDomainConstants : List Nat :=
  [FLIDOMAIN_PARALLEL_PORT, FLIDOMAIN_USB, FLIDOMAIN_SERIAL, FLIDOMAIN_INET,
   FLIDOMAIN_SERIAL_19200, FLIDOMAIN_SERIAL_1200]

/-- The device-type constant family of `libfli.h` (lines 133-153),
`FLIDEVICE_CAMERA` through `FLIDEVICE_RAW`. -/
def deviceTypeConstants : List Nat :=
  [FLIDEVICE_CAMERA, FLIDEVICE_FILTERWHEEL, FLIDEVICE_FOCUSER,
   FLIDEVICE_HS_FILTERWHEEL, FLIDEVICE_RAW]

/-- The enumerate-option constant family of `libfli.h` (lines 161-162); the two
names share the value `0x8000`. -/
def enumerateOptionConstants : List Nat :=
  [FLIDEVICE_ENUMERATE_BY_CONNECTION, FLIDEVICE_ENUMERATE_BY_SERIAL]

/-! ### Error taxonomy and status codes -/

/-- Modelled from the spec: the error taxonomy of section 7 (invalid-argument,
device-busy, invalid-sequence, transport-error, device-rejected,
not-implemented).  The implementation that would assign concrete numeric codes
is absent from the repository; here each kind receives a distinct negative
code, as the boundary convention requires. -/
inductive FliError
  | invalidArgument
  | deviceBusy
  | invalidSequence
  | transportError
  | deviceRejected
  | notImplemented
deriving DecidableEq, Fintype

/-- Modelled from the spec: the signed status code of an error kind.  Every
error kind maps to a distinct negative value; zero is reserved for success. -/
def FliError.code : FliError → Int
  | .invalidArgument => -1
  | .deviceBusy => -2
  | .invalidSequence => -3
  | .transportError => -4
  | .deviceRejected => -5
  | .notImplemented => -6

/-- Modelled from the spec: the signed status code of a fallible result, zero
on success and the error's negative code on failure (the sole error-reporting
channel at the boundary). -/
def statusOf {α : Type} : Except FliError α → Int
  | .ok _ => 0
  | .error e => e.code

/-! ### The declared API surface of src/clib/libfli.h -/

/-- Return-type shape of a C declaration in the header: `LIBFLIAPI` expands to
a signed `long` status return (libfli.h lines 303-319), while `void` marks a
declaration with no status return. -/
inductive CRet
  | longStatus
  | void
deriving DecidableEq

/-- One function declaration of the public header. -/
structure ApiDecl where
  name : String
  ret : CRet
deriving DecidableEq

/-- Every function of `src/clib/libfli.h` declared with `LIBFLIAPI` (which
expands to a signed `long` return on every platform, lines 303-319), in
declaration order.  The only other function in the header, the variadic debug
logger `FLIDebug` (line 330), is declared `void` and is recorded separately in
`flidebugDecl`. -/
def libfliAPIDecls : List ApiDecl :=
  [⟨"FLIOpen", .longStatus⟩,
   ⟨"FLISetDebugLevel", .longStatus⟩,
   ⟨"FLIClose", .longStatus⟩,
   ⟨"FLIGetLibVersion", .longStatus⟩,
   ⟨"FLIGetModel", .longStatus⟩,
   ⟨"FLIGetPixelSize", .longStatus⟩,
   ⟨"FLIGetHWRevision", .longStatus⟩,
   ⟨"FLIGetFWRevision", .longStatus⟩,
   ⟨"FLIGetArrayArea", .longStatus⟩,
   ⟨"FLIGetVisibleArea", .longStatus⟩,
   ⟨"FLISetExposureTime", .longStatus⟩,
   ⟨"FLISetImageArea", .longStatus⟩,
   ⟨"FLISetHBin", .longStatus⟩,
   ⟨"FLISetVBin", .longStatus⟩,
   ⟨"FLISetFrameType", .longStatus⟩,
   ⟨"FLICancelExposure", .longStatus⟩,
   ⟨"FLIGetExposureStatus", .longStatus⟩,
   ⟨"FLISetTemperature", .longStatus⟩,
   ⟨"FLIGetTemperature", .longStatus⟩,
   ⟨"FLIGetCoolerPower", .longStatus⟩,
   ⟨"FLIGrabRow", .longStatus⟩,
   ⟨"FLIExposeFrame", .longStatus⟩,
   ⟨"FLIFlushRow", .longStatus⟩,
   ⟨"FLISetNFlushes", .longStatus⟩,
   ⟨"FLISetBitDepth", .longStatus⟩,
   ⟨"FLIReadIOPort", .longStatus⟩,
   ⟨"FLIWriteIOPort", .longStatus⟩,
   ⟨"FLIConfigureIOPort", .longStatus⟩,
   ⟨"FLILockDevice", .longStatus⟩,
   ⟨"FLIUnlockDevice", .longStatus⟩,
   ⟨"FLIControlShutter", .longStatus⟩,
   ⟨"FLIControlBackgroundFlush", .longStatus⟩,
   ⟨"FLISetDAC", .longStatus⟩,
   ⟨"FLIList", .longStatus⟩,
   ⟨"FLIFreeList", .longStatus⟩,
   ⟨"FLIGetFilterName", .longStatus⟩,
   ⟨"FLISetActiveWheel", .longStatus⟩,
   ⟨"FLIGetActiveWheel", .longStatus⟩,
   ⟨"FLISetFilterPos", .longStatus⟩,
   ⟨"FLIGetFilterPos", .longStatus⟩,
   ⟨"FLIGetFilterCount", .longStatus⟩,
   ⟨"FLIStepMotor", .longStatus⟩,
   ⟨"FLIStepMotorAsync", .longStatus⟩,
   ⟨"FLIGetStepperPosition", .longStatus⟩,
   ⟨"FLIGetStepsRemaining", .longStatus⟩,
   ⟨"FLIHomeFocuser", .longStatus⟩,
   ⟨"FLICreateList", .longStatus⟩,
   ⟨"FLIDeleteList", .longStatus⟩,
   ⟨"FLIListFirst", .longStatus⟩,
   ⟨"FLIListNext", .longStatus⟩,
   ⟨"FLIReadTemperature", .longStatus⟩,
   ⟨"FLIGetFocuserExtent", .longStatus⟩,
   ⟨"FLIUsbBulkIO", .longStatus⟩,
   ⟨"FLIGetDeviceStatus", .longStatus⟩,
   ⟨"FLIGetCameraModeString", .longStatus⟩,
   ⟨"FLIGetCameraMode", .longStatus⟩,
   ⟨"FLISetCameraMode", .longStatus⟩,
   ⟨"FLIHomeDevice", .longStatus⟩,
   ⟨"FLIGrabFrame", .longStatus⟩,
   ⟨"FLISetTDI", .longStatus⟩,
   ⟨"FLIGrabVideoFrame", .longStatus⟩,
   ⟨"FLIStopVideoMode", .longStatus⟩,
   ⟨"FLIStartVideoMode", .longStatus⟩,
   ⟨"FLIGetSerialString", .longStatus⟩,
   ⟨"FLIEndExposure", .longStatus⟩,
   ⟨"FLITriggerExposure", .longStatus⟩,
   ⟨"FLISetFanSpeed", .longStatus⟩,
   ⟨"FLISetVerticalTableEntry", .longStatus⟩,
   ⟨"FLIGetVerticalTableEntry", .longStatus⟩,
   ⟨"FLIGetReadoutDimensions", .longStatus⟩,
   ⟨"FLIEnableVerticalTable", .longStatus⟩,
   ⟨"FLIReadUserEEPROM", .longStatus⟩,
   ⟨"FLIWriteUserEEPROM", .longStatus⟩]

/-- The variadic debug logger `FLIDebug` (libfli.h line 330): declared `void`,
it reports nothing; the spec excludes debug logging from the core (section 1). -/
def flidebugDecl : ApiDecl := ⟨"FLIDebug", .void⟩

/-! ### Device registry and session manager (implementation absent) -/

/-- Modelled from the spec: a device descriptor of the Device Registry
(section 3), reduced to the fields the claims use: the human-readable name
returned by enumeration and the domain (interface and device-type bitmask). -/
structure Device where
  name : String
  domain : Nat
deriving DecidableEq

/-- Modelled from the spec: the Session Manager state (section 4.2).  The
registry of discovered devices, the next fresh handle (handles are opaque
integers, reused only after close per section 3; here they are never reused),
and the currently open sessions, each binding a handle to its device. -/
structure SMState where
  registry : List Device
  nextHandle : Nat
  sessions : List (Nat × Device)
deriving DecidableEq

/-- Modelled from the spec: the initial Session Manager state for a given
registry snapshot: no open sessions. -/
def initSM (reg : List Device) : SMState := ⟨reg, 0, []⟩

/-- Modelled from the spec: the domain filter match of enumeration
(section 4.1): zero means all domains, otherwise the device's domain must
match the filter. -/
def domainMatches (filter : Nat) (d : Nat) : Bool := filter == 0 || d == filter

/-- Modelled from the spec: `FLIList` / `enumerate(domainFilter)`
(section 4.1): the registry entries matching the filter, in discovery order;
an empty sequence, not an error, when none match. -/
def FLIList (st : SMState) (filter : Nat) : List Device :=
  st.registry.filter (fun d => domainMatches filter d.domain)

/-- Modelled from the spec: `FLIOpen` (section 4.2).  Opening validates that
`name` matches a device reachable under `domain`, allocates a fresh session
bound to that device and returns (status, handle) with the new state; if no
device matches, the invalid-argument error is returned and the state is
unchanged. -/
def FLIOpen (st : SMState) (name : String) (domain : Nat) : (Int × Nat) × SMState :=
  if st.registry.any (fun d => d.name == name && d.domain == domain) then
    ((0, st.nextHandle),
     { st with nextHandle := st.nextHandle + 1,
               sessions := (st.nextHandle, ⟨name, domain⟩) :: st.sessions })
  else ((FliError.invalidArgument.code, 0), st)

/-- Modelled from the spec: `FLIClose` (section 4.2).  Closing a currently
open handle tears the session down and succeeds; closing an unknown or
already-closed handle reports the invalid-argument error rather than silently
succeeding. -/
def FLIClose (st : SMState) (h : Nat) : Int × SMState :=
  if st.sessions.any (fun p => p.1 == h) then
    (0, { st with sessions := st.sessions.eraseP (fun p => p.1 == h) })
  else (FliError.invalidArgument.code, st)

/-- A session-manager call at the boundary: an open request by name and
domain, or a close request for a handle. -/
inductive SMEvent
  | openEv (name : String) (domain : Nat)
  | closeEv (h : Nat)
deriving DecidableEq

/-- Modelled from the spec: one session-manager call, returning its status
code and the successor state. -/
def smStep (st : SMState) (e : SMEvent) : Int × SMState :=
  match e with
  | .openEv n d => ((FLIOpen st n d).1.1, (FLIOpen st n d).2)
  | .closeEv h => FLIClose st h

/-- Modelled from the spec: run a finite sequence of open and close calls,
returning the final state together with the number of successful (status
zero) open calls and successful close calls. -/
def runSM (st : SMState) : List SMEvent → SMState × Nat × Nat
  | [] => (st, 0, 0)
  | e :: tr =>
    let r := (smStep st e).1
    let rest := runSM (smStep st e).2 tr
    match e with
    | .openEv _ _ => (rest.1, rest.2.1 + (if r = 0 then 1 else 0), rest.2.2)
    | .closeEv _ => (rest.1, rest.2.1, rest.2.2 + (if r = 0 then 1 else 0))

/-! ### Device lock (implementation absent) -/

/-- Modelled from the spec: the DeviceLock table (section 3): which session,
if any, currently holds each physical device's exclusive lock, as a list of
(device identity, session identity) entries. -/
structure LockState where
  holders : List (Nat × Nat)
deriving DecidableEq

/-- Modelled from the spec: `FLILockDevice` (sections 3 and 4.2).  If the
device's lock is unheld the calling session acquires it; if the caller
already holds it the call succeeds; if another session holds it the
device-busy error is returned and the state is unchanged. -/
def FLILockDevice (st : LockState) (dev ses : Nat) : Int × LockState :=
  match st.holders.find? (fun p => p.1 == dev) with
  | some p => if p.2 == ses then (0, st) else (FliError.deviceBusy.code, st)
  | none => (0, ⟨(dev, ses) :: st.holders⟩)

/-- Modelled from the spec: `FLIUnlockDevice`.  The holding session releases
the device's lock; a session that does not hold it gets the invalid-argument
error. -/
def FLIUnlockDevice (st : LockState) (dev ses : Nat) : Int × LockState :=
  if (dev, ses) ∈ st.holders then
    (0, ⟨st.holders.filter (fun p => p ≠ (dev, ses))⟩)
  else (FliError.invalidArgument.code, st)

/-- A lock-manager call: a lock or unlock request by a session for a device. -/
inductive LockEvent
  | lockEv (dev ses : Nat)
  | unlockEv (dev ses : Nat)
deriving DecidableEq

/-- Modelled from the spec: run a finite sequence of lock and unlock calls
from the empty lock table (statuses are reported to callers; the state
evolution ignores them). -/
def runLocks (st : LockState) : List LockEvent → LockState
  | [] => st
  | .lockEv d s :: tr => runLocks (FLILockDevice st d s).2 tr
  | .unlockEv d s :: tr => runLocks (FLIUnlockDevice st d s).2 tr

/-! ### Exposure state machine (implementation absent) -/

/-- Modelled from the spec: the per-camera-session ExposureState enum of
section 3: Idle, Configuring, Exposing, AwaitingReadout, ReadingOut.  The
ReadingOut state additionally records how many rows of the configured frame
have already been consumed (section 4.4 requires strict top-to-bottom order
and automatic return to Idle once the frame is drained). -/
inductive ExposureState
  | Idle
  | Configuring
  | Exposing
  | AwaitingReadout
  | ReadingOut (rowsRead : Nat)
deriving DecidableEq

/-- Modelled from the spec: a camera Session's device-type-specific mutable
configuration (exposure time, frame type, binning, region of interest, bit
depth) together with its current ExposureState (section 3). -/
structure CamSession where
  expTime : Nat
  frameType : Nat
  hbin : Nat
  vbin : Nat
  roiWidth : Nat
  roiHeight : Nat
  bitDepth : Nat
  expState : ExposureState
deriving DecidableEq

/-- Modelled from the spec: bytes per pixel of the configured bit depth
(8-bit mode one byte, 16-bit mode two bytes, section 6). -/
def bytesPerPixel (s : CamSession) : Nat :=
  if s.bitDepth = FLI_MODE_16BIT then 2 else 1

/-- Modelled from the spec: the device's answer to one command over the
transport: whether the device acknowledged it, and (for status queries) the
remaining exposure time it reports.  State transitions may occur only after
the acknowledgement is confirmed (section 7). -/
structure DevResp where
  ack : Bool
  remaining : Nat
deriving DecidableEq

/-- A device acknowledgement with no remaining time, for driving the machine
on the happy path. -/
def ackOk : DevResp := ⟨true, 0⟩

/-- Modelled from the spec: `FLISetExposureTime` (sections 4.4 and 6).
Configuration calls are legal only while Idle; changing configuration
mid-exposure is rejected with the invalid-sequence error, leaving the session
unchanged. -/
def FLISetExposureTime (t : Nat) (s : CamSession) : Int × CamSession :=
  match s.expState with
  | .Idle => (0, { s with expTime := t })
  | _ => (FliError.invalidSequence.code, s)

/-- Modelled from the spec: `FLIExposeFrame` (section 4.4), transition
`Idle --expose()--> Exposing`.  The call issues the expose command and
returns once the device acknowledges the start; without the acknowledgement
the transport-error is returned and the state does not change.  In any state
other than Idle the call is out of sequence. -/
def FLIExposeFrame (resp : DevResp) (s : CamSession) : Int × CamSession :=
  match s.expState with
  | .Idle =>
    if resp.ack then (0, { s with expState := .Exposing })
    else (FliError.transportError.code, s)
  | _ => (FliError.invalidSequence.code, s)

/-- Modelled from the spec: `FLICancelExposure` (section 4.4), transition
`Exposing --cancel()--> Idle`.  Cancellation is always legal while Exposing
and idempotent: cancelling an already-finished (or never-started) exposure is
a no-op returning success, not an error. -/
def FLICancelExposure (resp : DevResp) (s : CamSession) : Int × CamSession :=
  match s.expState with
  | .Exposing =>
    if resp.ack then (0, { s with expState := .Idle })
    else (FliError.transportError.code, s)
  | _ => (0, s)

/-- Modelled from the spec: `FLIGetExposureStatus` (section 4.4), transition
`Exposing --poll status--> Exposing|AwaitingReadout`.  The query reports the
remaining time and moves to AwaitingReadout when it reaches zero; the result
is (status, reported remaining time, session). -/
def FLIGetExposureStatus (resp : DevResp) (s : CamSession) : Int × Nat × CamSession :=
  match s.expState with
  | .Exposing =>
    if resp.ack then
      if resp.remaining = 0 then (0, 0, { s with expState := .AwaitingReadout })
      else (0, resp.remaining, s)
    else (FliError.transportError.code, 0, s)
  | _ => (FliError.invalidSequence.code, 0, s)

/-- Modelled from the spec: `FLIEndExposure` (section 4.4), transition
`AwaitingReadout --endExposure()--> ReadingOut`, beginning row retrieval at
row zero. -/
def FLIEndExposure (resp : DevResp) (s : CamSession) : Int × CamSession :=
  match s.expState with
  | .AwaitingReadout =>
    if resp.ack then (0, { s with expState := .ReadingOut 0 })
    else (FliError.transportError.code, s)
  | _ => (FliError.invalidSequence.code, s)

/-- Modelled from the spec: `FLIGrabRow` (section 4.4).  While ReadingOut,
each acknowledged call consumes the next row in strict top-to-bottom order;
once all `roiHeight` rows are consumed the session automatically returns to
Idle.  Any exposure-lifecycle call out of the permitted state fails with the
invalid-sequence error (sections 4.4 and 7). -/
def FLIGrabRow (resp : DevResp) (s : CamSession) : Int × CamSession :=
  match s.expState with
  | .ReadingOut r =>
    if r < s.roiHeight then
      if resp.ack then
        (0, { s with expState := if r + 1 = s.roiHeight then .Idle else .ReadingOut (r + 1) })
      else (FliError.transportError.code, s)
    else (FliError.invalidSequence.code, s)
  | _ => (FliError.invalidSequence.code, s)

/-- Iterate `FLIGrabRow` with an acknowledging device, collecting the status
code of each call in order together with the final session. -/
def grabRows : Nat → CamSession → List Int × CamSession
  | 0, s => ([], s)
  | n + 1, s =>
    let first := FLIGrabRow ackOk s
    let rest := grabRows n first.2
    (first.1 :: rest.1, rest.2)

/-- Modelled from the spec: `FLIGrabFrame`.  The header is the authority
here: `src/clib/libfli.h` line 753 documents the function as NOT IMPLEMENTED,
and section 7 reserves the not-implemented error kind for exactly this case,
so the call always returns that error, transfers zero bytes and leaves the
session unchanged.  The result is (status, bytes grabbed, session). -/
def FLIGrabFrame (s : CamSession) (buffsize : Nat) : Int × Nat × CamSession :=
  (FliError.notImplemented.code, 0, s)

/-- One exposure-lifecycle operation of a camera session. -/
inductive CamOp
  | setExpTime (t : Nat)
  | expose
  | cancel
  | poll
  | endExp
  | grabRow
deriving DecidableEq

/-- Modelled from the spec: dispatch one exposure-lifecycle operation with
the device's response, returning the status code and the successor session. -/
def camStep (op : CamOp) (resp : DevResp) (s : CamSession) : Int × CamSession :=
  match op with
  | .setExpTime t => FLISetExposureTime t s
  | .expose => FLIExposeFrame resp s
  | .cancel => FLICancelExposure resp s
  | .poll => ((FLIGetExposureStatus resp s).1, (FLIGetExposureStatus resp s).2.2)
  | .endExp => FLIEndExposure resp s
  | .grabRow => FLIGrabRow resp s

/-! ### The end-to-end scenario of spec section 8 -/

/-- The registry snapshot of the scenario: one USB camera named FLI-04. -/
def reg0 : List Device := [⟨"FLI-04", FLIDOMAIN_USB ||| FLIDEVICE_CAMERA⟩]

/-- A camera session with a 4 by 3 region of interest in 16-bit mode, idle. -/
def cam0 : CamSession :=
  ⟨0, FLI_FRAME_TYPE_NORMAL, 1, 1, 4, 3, FLI_MODE_16BIT, .Idle⟩

/-- Scenario step: open FLI-04 in the USB camera domain. -/
def scenOpen : (Int × Nat) × SMState :=
  FLIOpen (initSM reg0) "FLI-04" (FLIDOMAIN_USB ||| FLIDEVICE_CAMERA)

/-- Scenario step: set the exposure time to 10000 ms. -/
def scen1 : Int × CamSession := FLISetExposureTime 10000 cam0

/-- Scenario step: start the exposure (device acknowledges). -/
def scen2 : Int × CamSession := FLIExposeFrame ackOk scen1.2

/-- Scenario step: poll mid-exposure, the device reporting 500 ms left. -/
def scen3 : Int × Nat × CamSession := FLIGetExposureStatus ⟨true, 500⟩ scen2.2

/-- Scenario step: poll again, the device reporting zero time left. -/
def scen4 : Int × Nat × CamSession := FLIGetExposureStatus ⟨true, 0⟩ scen3.2.2

/-- Scenario step: end the exposure, entering readout. -/
def scen5 : Int × CamSession := FLIEndExposure ackOk scen4.2.2

/-- Scenario step: attempt to grab the whole frame into a buffer of
width times height times bytes-per-pixel bytes. -/
def scenGrab : Int × Nat × CamSession := FLIGrabFrame scen5.2 (4 * 3 * 2)

/-! ### Embedding of src/clib/test.c -/

/-- The environment of one run of the example program: the return value each
library call would produce, the device list `FLIList` would return, whether
`malloc`, `fopen` and `fwrite` succeed, and the successive
(status, remaining-time) answers of `FLIGetExposureStatus` in the polling
loop. -/
structure TestEnv where
  listRes : Int
  listNames : List String
  openRes : Int
  setExpRes : Int
  setFrameRes : Int
  getDimRes : Int
  setAreaRes : Int
  setHBinRes : Int
  setVBinRes : Int
  mallocOk : Bool
  exposeRes : Int
  polls : List (Int × Int)
  endExpRes : Int
  grabRes : Int
  fopenOk : Bool
  fwriteOk : Bool
deriving DecidableEq

/-- An observable event of the example program: a library call together with
the return value the program saw, a successful file write, freeing the image
buffer (`freemem` label), closing the handle (`close` label), or freeing the
device list (`cleanup` label). -/
inductive Ev
  | listCall (r : Int)
  | openCall (r : Int)
  | setExpCall (r : Int)
  | setFrameCall (r : Int)
  | getDimsCall (r : Int)
  | setAreaCall (r : Int)
  | setHBinCall (r : Int)
  | setVBinCall (r : Int)
  | exposeCall (r : Int)
  | pollCall (r : Int)
  | endExposureCall (r : Int)
  | grabFrameCall (r : Int)
  | fileWritten
  | freeBuf
  | closeCall
  | freeList
deriving DecidableEq

/-- Events of test.c lines 100-127: `FLIEndExposure` (failure `< 0` goes to
`freemem`), `FLIGrabFrame` (failure `< 0` goes to `freemem`), then the file
write; every exit path falls through the `freemem` and `close` labels. -/
def afterPolls (env : TestEnv) : List Ev :=
  Ev.endExposureCall env.endExpRes ::
    if env.endExpRes < 0 then [Ev.freeBuf, Ev.closeCall]
    else Ev.grabFrameCall env.grabRes ::
      if env.grabRes < 0 then [Ev.freeBuf, Ev.closeCall]
      else if env.fopenOk then
        if env.fwriteOk then [Ev.fileWritten, Ev.freeBuf, Ev.closeCall]
        else [Ev.freeBuf, Ev.closeCall]
      else [Ev.freeBuf, Ev.closeCall]

/-- Events of the polling loop of test.c lines 82-99: each iteration calls
`FLIGetExposureStatus`; a return value different from zero (the only call
site checked with `!=` instead of `< 0`) jumps to `freemem`, a zero return
with zero remaining time breaks out of the loop, and otherwise the loop
continues with the next poll.  If the supplied poll answers run out the
program would keep polling forever, so the event list simply ends. -/
def pollPhase (env : TestEnv) : List (Int × Int) → List Ev
  | [] => []
  | (r, t) :: rest =>
    Ev.pollCall r ::
      if r ≠ 0 then [Ev.freeBuf, Ev.closeCall]
      else if t = 0 then afterPolls env
      else pollPhase env rest

/-- Events of the body of test.c lines 22-131 (executed when the device list
is non-empty): `FLIOpen` failure goes to `cleanup` (not `close`); each
configuration call failure goes to `close`; a failed `malloc` goes to
`close`; `FLIExposeFrame` failure goes to `freemem`; otherwise the polling
loop runs. -/
def testBody (env : TestEnv) : List Ev :=
  Ev.openCall env.openRes ::
    if env.openRes < 0 then []
    else Ev.setExpCall env.setExpRes ::
      if env.setExpRes < 0 then [Ev.closeCall]
      else Ev.setFrameCall env.setFrameRes ::
        if env.setFrameRes < 0 then [Ev.closeCall]
        else Ev.getDimsCall env.getDimRes ::
          if env.getDimRes < 0 then [Ev.closeCall]
          else Ev.setAreaCall env.setAreaRes ::
            if env.setAreaRes < 0 then [Ev.closeCall]
            else Ev.setHBinCall env.setHBinRes ::
              if env.setHBinRes < 0 then [Ev.closeCall]
              else Ev.setVBinCall env.setVBinRes ::
                if env.setVBinRes < 0 then [Ev.closeCall]
                else if env.mallocOk = false then [Ev.closeCall]
                else Ev.exposeCall env.exposeRes ::
                  if env.exposeRes < 0 then [Ev.freeBuf, Ev.closeCall]
                  else pollPhase env env.polls

/-- The event trace of one run of `main` in src/clib/test.c: `FLIList`
failure (`< 0`) goes straight to `cleanup` with a NULL list (so `FLIFreeList`
is not called); on success the body runs when at least one device was listed,
and `FLIFreeList` always runs at `cleanup`. -/
def runMain (env : TestEnv) : List Ev :=
  Ev.listCall env.listRes ::
    if env.listRes < 0 then []
    else (if env.listNames.length > 0 then testBody env else []) ++ [Ev.freeList]

/-- Whether the polling loop of test.c, fed these successive
(status, remaining-time) answers, terminates by the `break` at line 97: every
answer up to the break must have status exactly zero and the breaking answer
must report zero remaining time. -/
def pollsComplete : List (Int × Int) → Bool
  | [] => false
  | (r, t) :: rest => if r ≠ 0 then false else if t = 0 then true else pollsComplete rest

/-! ### Concrete instances for evaluating the theorems -/

/-- The scenario camera session at the start of readout. -/
def camReading : CamSession := { cam0 with expState := .ReadingOut 0 }

/-- The scenario camera session while an exposure is in progress. -/
def camExposing : CamSession := { cam0 with expState := .Exposing }

/-- A concrete open-then-close call sequence on the scenario registry. -/
def trW : List SMEvent :=
  [.openEv "FLI-04" (FLIDOMAIN_USB ||| FLIDEVICE_CAMERA), .closeEv 0]

/-- A concrete lock call sequence: session 1 locks device 7. -/
def trL : List LockEvent := [.lockEv 7 1]

/-- A concrete run of the example program in which every library call other
than `FLIGetExposureStatus` returns the positive value one and the polling
loop sees a 5 ms remainder and then completes. -/
def envW : TestEnv :=
  ⟨1, ["FLI-04"], 1, 1, 1, 1, 1, 1, 1, true, 1, [(0, 5), (0, 0)], 1, 1, true, true⟩

/-! ### Theorems -/

theorem FliError.code_neg : ∀ e : FliError, FliError.code e < 0 := by decide

/-- C10: the domain constant families of libfli.h are disjoint under their
masks: every interface-domain constant lies within
`FLIDOMAIN_INTERFACE_MASK`, every device-type constant within
`FLIDOMAIN_DEVICE_MASK`, the enumerate-option constant within
`FLIDOMAIN_OPTIONS_MASK`, the three masks are pairwise disjoint, and masking
a domain formed as the bitwise OR of one constant from each family recovers
each component exactly (in particular
`(FLIDOMAIN_USB ||| FLIDEVICE_CAMERA) &&& FLIDOMAIN_INTERFACE_MASK =
FLIDOMAIN_USB`). -/
theorem domain_constant_families_disjoint :
    (interfaceDomainConstants.all (fun c => c &&& FLIDOMAIN_INTERFACE_MASK == c) = true)
    ∧ (deviceTypeConstants.all (fun c => c &&& FLIDOMAIN_DEVICE_MASK == c) = true)
    ∧ (enumerateOptionConstants.all (fun c => c &&& FLIDOMAIN_OPTIONS_MASK == c) = true)
    ∧ FLIDOMAIN_INTERFACE_MASK &&& FLIDOMAIN_DEVICE_MASK = 0
    ∧ FLIDOMAIN_INTERFACE_MASK &&& FLIDOMAIN_OPTIONS_MASK = 0
    ∧ FLIDOMAIN_DEVICE_MASK &&& FLIDOMAIN_OPTIONS_MASK = 0
    ∧ (interfaceDomainConstants.all (fun i => deviceTypeConstants.all (fun d =>
        enumerateOptionConstants.all (fun e =>
          ((i ||| d ||| e) &&& FLIDOMAIN_INTERFACE_MASK == i)
          && ((i ||| d ||| e) &&& FLIDOMAIN_DEVICE_MASK == d)
          && ((i ||| d ||| e) &&& FLIDOMAIN_OPTIONS_MASK == e)
          && ((i ||| d) &&& FLIDOMAIN_INTERFACE_MASK == i)
          && ((i ||| d) &&& FLIDOMAIN_DEVICE_MASK == d)))) = true)
    ∧ (FLIDOMAIN_USB ||| FLIDEVICE_CAMERA) &&& FLIDOMAIN_INTERFACE_MASK = FLIDOMAIN_USB := by
  decide

/-- C1: every operation of the public API surface (the `LIBFLIAPI`
declarations of libfli.h, which expand to a signed `long` return) returns a
signed status code, and in the modelled semantics the status is zero exactly
on success, every error kind has its own negative code (so a negative value
identifies a specific error kind), and a failing result is exactly a negative
status — the status code is the sole error-reporting channel. -/
theorem status_code_convention :
    (∀ d ∈ libfliAPIDecls, d.ret = CRet.longStatus)
    ∧ (∀ e : FliError, FliError.code e < 0)
    ∧ (∀ e₁ e₂ : FliError, FliError.code e₁ = FliError.code e₂ → e₁ = e₂)
    ∧ (∀ r : Except FliError Unit,
        (statusOf r = 0 ↔ r = .ok ()) ∧ (statusOf r < 0 ↔ ∃ e, r = .error e)) := by
  refine ⟨by decide, FliError.code_neg, by decide, ?_⟩
  intro r
  cases r with
  | ok a =>
    cases a
    simp [statusOf]
  | error e =>
    have h := FliError.code_neg e
    simp only [statusOf]
    exact ⟨⟨fun h0 => absurd h0 (by omega), fun hc => nomatch hc⟩,
           ⟨fun _ => ⟨e, rfl⟩, fun _ => h⟩⟩

theorem status_code_convention_witness :
    ApiDecl.ret ⟨"FLIOpen", CRet.longStatus⟩ = CRet.longStatus
    ∧ FliError.code .deviceBusy < 0
    ∧ FliError.deviceBusy = FliError.deviceBusy
    ∧ statusOf (Except.ok () : Except FliError Unit) = 0 :=
  ⟨status_code_convention.1 ⟨"FLIOpen", CRet.longStatus⟩ (by decide),
   status_code_convention.2.1 .deviceBusy,
   status_code_convention.2.2.1 .deviceBusy .deviceBusy rfl,
   (status_code_convention.2.2.2 (Except.ok ())).1.mpr rfl⟩

/-- C5: calling expose while the session is already Exposing returns the
invalid-sequence error and leaves the session unchanged, and calling cancel
while Idle is a no-op returning success (zero) that leaves the state Idle. -/
theorem expose_exposing_cancel_idle :
    ∀ (s : CamSession) (resp : DevResp),
      (s.expState = ExposureState.Exposing →
        FLIExposeFrame resp s = (FliError.invalidSequence.code, s))
      ∧ (s.expState = ExposureState.Idle →
        FLICancelExposure resp s = (0, s)) := by
  intro s resp
  constructor
  · intro h
    simp [FLIExposeFrame, h]
  · intro h
    simp [FLICancelExposure, h]

theorem expose_exposing_cancel_idle_witness :
    FLIExposeFrame ackOk camExposing = (FliError.invalidSequence.code, camExposing)
    ∧ FLICancelExposure ackOk cam0 = (0, cam0) :=
  ⟨(expose_exposing_cancel_idle camExposing ackOk).1 rfl,
   (expose_exposing_cancel_idle cam0 ackOk).2 rfl⟩

/-- C2 counterexample: in the end-to-end scenario every step up to and
including `FLIEndExposure` succeeds and the session enters readout, yet the
subsequent `FLIGrabFrame` call does not succeed with width times height times
bytes-per-pixel bytes: the header documents `FLIGrabFrame` as NOT
IMPLEMENTED (libfli.h line 753). -/
theorem grabFrame_scenario_cex :
    scenOpen.1.1 = 0 ∧ scen1.1 = 0 ∧ scen2.1 = 0 ∧ scen3.1 = 0 ∧ scen4.1 = 0
    ∧ scen5.1 = 0 ∧ scen5.2.expState = ExposureState.ReadingOut 0
    ∧ ¬ (scenGrab.1 = 0 ∧ scenGrab.2.1 = 4 * 3 * 2) := by
  decide

/-- C2 amended: in the end-to-end scenario (open, set exposure time, expose,
poll to completion, end exposure — each step returning zero), the subsequent
`FLIGrabFrame` call fails with the not-implemented error and transfers no
bytes, since the header documents the function as NOT IMPLEMENTED. -/
theorem grabFrame_scenario_not_implemented :
    scenOpen.1.1 = 0 ∧ scen1.1 = 0 ∧ scen2.1 = 0 ∧ scen3.1 = 0 ∧ scen4.1 = 0
    ∧ scen5.1 = 0 ∧ scen5.2.expState = ExposureState.ReadingOut 0
    ∧ (∀ (s : CamSession) (n : Nat),
        FLIGrabFrame s n = (FliError.notImplemented.code, 0, s))
    ∧ FliError.notImplemented.code < 0 :=
  ⟨by decide, by decide, by decide, by decide, by decide, by decide, by decide,
   fun s n => rfl, by decide⟩

theorem grabRows_drain :
    ∀ (k : Nat) (s : CamSession) (r : Nat),
      s.expState = ExposureState.ReadingOut r → r + k = s.roiHeight → 0 < k →
      (grabRows k s).1 = List.replicate k 0
      ∧ (grabRows k s).2 = { s with expState := ExposureState.Idle } := by
  intro k
  induction k with
  | zero =>
    intro s r _ _ h3
    exact absurd h3 (by omega)
  | succ n ih =>
    intro s r hst hsum hpos
    have hr : r < s.roiHeight := by omega
    by_cases hn : n = 0
    · subst hn
      have hEnd : r + 1 = s.roiHeight := by omega
      simp [grabRows, FLIGrabRow, hst, hr, hEnd, ackOk]
    · have hNe : ¬ (r + 1 = s.roiHeight) := by omega
      have step : FLIGrabRow ackOk s
          = (0, { s with expState := ExposureState.ReadingOut (r + 1) }) := by
        simp [FLIGrabRow, hst, hr, hNe, ackOk]
      have ihh := ih { s with expState := ExposureState.ReadingOut (r + 1) } (r + 1)
        rfl (by show r + 1 + n = s.roiHeight; omega) (by omega)
      constructor
      · simp [grabRows, step, List.replicate_succ, ihh.1]
      · simp [grabRows, step, ihh.2]

/-- C6 amended: for a session entering readout with a configured region of
interest of height H (H positive), exactly H acknowledged grabRow calls all
succeed, consume the whole frame and return the ExposureState to Idle, and
any further grabRow call returns the invalid-sequence error (the session
having already returned to Idle, an out-of-state lifecycle call fails with
invalid-sequence per the error taxonomy), not the invalid-argument error. -/
theorem grabRow_drain_invalid_sequence :
    ∀ (s : CamSession) (H : Nat),
      s.expState = ExposureState.ReadingOut 0 → s.roiHeight = H → 0 < H →
      (grabRows H s).1 = List.replicate H 0
      ∧ (grabRows H s).2.expState = ExposureState.Idle
      ∧ FLIGrabRow ackOk (grabRows H s).2
          = (FliError.invalidSequence.code, (grabRows H s).2)
      ∧ FliError.invalidSequence.code < 0 := by
  intro s H hst hH hpos
  have h := grabRows_drain H s 0 hst (by omega) hpos
  refine ⟨h.1, by rw [h.2], ?_, by decide⟩
  rw [h.2]
  simp [FLIGrabRow]

theorem grabRow_drain_invalid_sequence_witness :
    (grabRows 3 camReading).1 = List.replicate 3 0
    ∧ (grabRows 3 camReading).2.expState = ExposureState.Idle
    ∧ FLIGrabRow ackOk (grabRows 3 camReading).2
        = (FliError.invalidSequence.code, (grabRows 3 camReading).2)
    ∧ FliError.invalidSequence.code < 0 :=
  grabRow_drain_invalid_sequence camReading 3 rfl rfl (by decide)

/-- C6 counterexample: on a session with configured height three entering
readout, the fourth grabRow call (strictly more calls than the height)
returns the invalid-sequence error, which is not the invalid-argument error
the claim states. -/
theorem grabRow_overread_cex :
    (grabRows 4 camReading).1 = [0, 0, 0, FliError.invalidSequence.code]
    ∧ FliError.invalidSequence.code ≠ FliError.invalidArgument.code := by
  decide

/-- C8: every exposure-lifecycle operation that fails (returns a negative
status) leaves the session's ExposureState exactly as it was before the
call: transitions happen only on a confirmed device acknowledgement, never
optimistically. -/
theorem failed_call_preserves_state :
    ∀ (op : CamOp) (resp : DevResp) (s : CamSession),
      (camStep op resp s).1 < 0 → (camStep op resp s).2.expState = s.expState := by
  intro op resp s h
  cases op <;> cases hs : s.expState <;>
    simp only [camStep, FLISetExposureTime, FLIExposeFrame, FLICancelExposure,
      FLIGetExposureStatus, FLIEndExposure, FLIGrabRow, hs] at h ⊢ <;>
    split_ifs at h ⊢ <;>
    first
    | rfl
    | (exfalso; omega)
    | simp [hs]

theorem failed_call_preserves_state_witness :
    (camStep CamOp.expose ackOk camExposing).1 < 0
    ∧ (camStep CamOp.expose ackOk camExposing).2.expState = camExposing.expState :=
  ⟨by decide, failed_call_preserves_state CamOp.expose ackOk camExposing (by decide)⟩

theorem runSM_cons_open (st : SMState) (n : String) (d : Nat) (tr : List SMEvent) :
    runSM st (.openEv n d :: tr)
      = ((runSM (FLIOpen st n d).2 tr).1,
         (runSM (FLIOpen st n d).2 tr).2.1 + (if (FLIOpen st n d).1.1 = 0 then 1 else 0),
         (runSM (FLIOpen st n d).2 tr).2.2) := by
  simp [runSM, smStep]

theorem runSM_cons_close (st : SMState) (h : Nat) (tr : List SMEvent) :
    runSM st (.closeEv h :: tr)
      = ((runSM (FLIClose st h).2 tr).1,
         (runSM (FLIClose st h).2 tr).2.1,
         (runSM (FLIClose st h).2 tr).2.2 + (if (FLIClose st h).1 = 0 then 1 else 0)) := by
  simp [runSM, smStep]

theorem length_eraseP_any {l : List (Nat × Device)} {h : Nat}
    (hmem : l.any (fun p => p.1 == h) = true) :
    (l.eraseP (fun p => p.1 == h)).length + 1 = l.length := by
  obtain ⟨a, ha, hpa⟩ := List.any_eq_true.mp hmem
  have h1 := List.length_eraseP_of_mem (p := fun p => p.1 == h) ha hpa
  have h2 := List.length_pos_of_mem ha
  omega

theorem runSM_invariant :
    ∀ (tr : List SMEvent) (st : SMState),
      (runSM st tr).2.2 + ((runSM st tr).1).sessions.length
        = st.sessions.length + (runSM st tr).2.1 := by
  intro tr
  induction tr with
  | nil => intro st; simp [runSM]
  | cons e tr ih =>
    intro st
    cases e with
    | openEv n d =>
      rw [runSM_cons_open]
      have ihh := ih (FLIOpen st n d).2
      by_cases hc : st.registry.any (fun dd => dd.name == n && dd.domain == d) = true
      · simp [FLIOpen, hc] at ihh ⊢
        omega
      · simp [FLIOpen, FliError.code, hc] at ihh ⊢
        omega
    | closeEv hh =>
      rw [runSM_cons_close]
      have ihh := ih (FLIClose st hh).2
      by_cases hc : st.sessions.any (fun p => p.1 == hh) = true
      · have hlen := length_eraseP_any hc
        simp [FLIClose, hc] at ihh ⊢
        omega
      · simp [FLIClose, FliError.code, hc] at ihh ⊢
        omega

/-- C3: over every finite sequence of open and close calls from a fresh
session manager, the number of successful close calls never exceeds the
number of successful open calls, the number of currently valid handles equals
(hence never exceeds) their difference, and close on a handle that is not
currently open — one never opened or already closed (handles are never
reused) — returns the invalid-argument error and leaves the state unchanged. -/
theorem open_close_accounting :
    ∀ (reg : List Device) (tr : List SMEvent) (h : Nat),
      (runSM (initSM reg) tr).2.2 ≤ (runSM (initSM reg) tr).2.1
      ∧ ((runSM (initSM reg) tr).1).sessions.length
          = (runSM (initSM reg) tr).2.1 - (runSM (initSM reg) tr).2.2
      ∧ (((runSM (initSM reg) tr).1).sessions.all (fun p => p.1 != h) = true →
          FLIClose ((runSM (initSM reg) tr).1) h
            = (FliError.invalidArgument.code, (runSM (initSM reg) tr).1)) := by
  intro reg tr h
  have inv := runSM_invariant tr (initSM reg)
  have h0 : (initSM reg).sessions.length = 0 := rfl
  rw [h0] at inv
  refine ⟨by omega, by omega, ?_⟩
  intro hall
  have hnone : ((runSM (initSM reg) tr).1).sessions.any (fun p => p.1 == h) = false := by
    rw [List.any_eq_false]
    intro p hp
    have hph := List.all_eq_true.mp hall p hp
    simp at hph ⊢
    exact hph
  simp [FLIClose, hnone]

theorem open_close_accounting_witness :
    FLIClose ((runSM (initSM reg0) trW).1) 5
      = (FliError.invalidArgument.code, (runSM (initSM reg0) trW).1)
    ∧ (runSM (initSM reg0) trW).2.2 ≤ (runSM (initSM reg0) trW).2.1 :=
  ⟨(open_close_accounting reg0 trW 5).2.2 (by decide),
   (open_close_accounting reg0 trW 5).1⟩

theorem keyed_unique {l : List (Nat × Nat)} (hnd : (l.map Prod.fst).Nodup)
    {d b c : Nat} (hb : (d, b) ∈ l) (hc : (d, c) ∈ l) : b = c := by
  induction l with
  | nil => cases hb
  | cons p l ih =>
    simp only [List.map_cons, List.nodup_cons] at hnd
    rcases List.mem_cons.mp hb with hb1 | hb2 <;> rcases List.mem_cons.mp hc with hc1 | hc2
    · rw [← hb1] at hc1
      exact congrArg Prod.snd hc1.symm
    · exfalso
      apply hnd.1
      have hd : p.1 = d := by rw [← hb1]
      rw [hd]
      exact List.mem_map_of_mem Prod.fst hc2
    · exfalso
      apply hnd.1
      have hd : p.1 = d := by rw [← hc1]
      rw [hd]
      exact List.mem_map_of_mem Prod.fst hb2
    · exact ih hnd.2 hb2 hc2

theorem runLocks_nodup :
    ∀ (tr : List LockEvent) (st : LockState),
      (st.holders.map Prod.fst).Nodup → ((runLocks st tr).holders.map Prod.fst).Nodup := by
  intro tr
  induction tr with
  | nil => intro st h; simpa [runLocks] using h
  | cons e tr ih =>
    intro st h
    cases e with
    | lockEv d s =>
      show ((runLocks (FLILockDevice st d s).2 tr).holders.map Prod.fst).Nodup
      apply ih
      rcases hf : st.holders.find? (fun p => p.1 == d) with _ | p
      · simp only [FLILockDevice, hf, List.map_cons]
        refine List.nodup_cons.mpr ⟨?_, h⟩
        intro hmem
        obtain ⟨q, hq, hq1⟩ := List.mem_map.mp hmem
        have hnf := List.find?_eq_none.mp hf q hq
        simp [hq1] at hnf
      · simp only [FLILockDevice, hf]
        split <;> exact h
    | unlockEv d s =>
      show ((runLocks (FLIUnlockDevice st d s).2 tr).holders.map Prod.fst).Nodup
      apply ih
      by_cases hm : (d, s) ∈ st.holders
      · simp only [FLIUnlockDevice, if_pos hm]
        exact List.Nodup.sublist ((List.filter_sublist _).map Prod.fst) h
      · simp only [FLIUnlockDevice, if_neg hm]
        exact h

/-- C4: in every reachable state of the lock manager, at most one session
holds a given device's lock (two holder entries for the same device agree on
the session), and a lock attempt by a second session while the lock is held
returns the device-busy error. -/
theorem device_lock_exclusive :
    ∀ (tr : List LockEvent) (dev s1 s2 : Nat),
      ((dev, s1) ∈ (runLocks ⟨[]⟩ tr).holders → (dev, s2) ∈ (runLocks ⟨[]⟩ tr).holders →
        s1 = s2)
      ∧ ((dev, s1) ∈ (runLocks ⟨[]⟩ tr).holders → s2 ≠ s1 →
          (FLILockDevice (runLocks ⟨[]⟩ tr) dev s2).1 = FliError.deviceBusy.code) := by
  intro tr dev s1 s2
  have hnd := runLocks_nodup tr ⟨[]⟩ (by simp)
  constructor
  · intro h1 h2
    exact keyed_unique hnd h1 h2
  · intro h1 hne
    cases hf : (runLocks ⟨[]⟩ tr).holders.find? (fun p => p.1 == dev) with
    | none =>
      exfalso
      have hnf := List.find?_eq_none.mp hf _ h1
      simp at hnf
    | some p =>
      obtain ⟨pd, ps⟩ := p
      have hp1 := List.find?_some hf
      have hpm := List.mem_of_find?_eq_some hf
      have hpd : pd = dev := by simpa using hp1
      subst hpd
      have hps : ps = s1 := keyed_unique hnd hpm h1
      have hne2 : ¬ (ps = s2) := by
        rw [hps]
        intro hcon
        exact hne hcon.symm
      simp [FLILockDevice, hf, hne2]

theorem device_lock_exclusive_witness :
    (FLILockDevice (runLocks ⟨[]⟩ trL) 7 2).1 = FliError.deviceBusy.code
    ∧ (1 : Nat) = 1 :=
  ⟨(device_lock_exclusive trL 7 1 2).2 (by decide) (by decide),
   (device_lock_exclusive trL 7 1 1).1 (by decide) (by decide)⟩

/-- C7: every entry of an enumeration result can be opened by its returned
name and domain and the obtained handle closed again, each step returning
status zero — for any registry and any domain filter that matched at least
one device (the entry is a member of the result). -/
theorem enumerate_open_close_roundtrip :
    ∀ (st : SMState) (filter : Nat) (d : Device),
      d ∈ FLIList st filter →
      (FLIOpen st d.name d.domain).1.1 = 0
      ∧ (FLIClose (FLIOpen st d.name d.domain).2 (FLIOpen st d.name d.domain).1.2).1 = 0 := by
  intro st filter d hd
  have hreg : d ∈ st.registry := List.mem_of_mem_filter hd
  have hany : st.registry.any (fun dd => dd.name == d.name && dd.domain == d.domain) = true := by
    rw [List.any_eq_true]
    exact ⟨d, hreg, by simp⟩
  constructor
  · simp [FLIOpen, hany]
  · simp [FLIOpen, hany, FLIClose]

theorem enumerate_open_close_roundtrip_witness :
    (FLIOpen (initSM reg0) "FLI-04" (FLIDOMAIN_USB ||| FLIDEVICE_CAMERA)).1.1 = 0
    ∧ (FLIClose (FLIOpen (initSM reg0) "FLI-04" (FLIDOMAIN_USB ||| FLIDEVICE_CAMERA)).2
        (FLIOpen (initSM reg0) "FLI-04" (FLIDOMAIN_USB ||| FLIDEVICE_CAMERA)).1.2).1 = 0 :=
  enumerate_open_close_roundtrip (initSM reg0) (FLIDOMAIN_USB ||| FLIDEVICE_CAMERA)
    ⟨"FLI-04", FLIDOMAIN_USB ||| FLIDEVICE_CAMERA⟩ (by decide)

theorem pollCall_not_mem_afterPolls (env : TestEnv) (r : Int) :
    Ev.pollCall r ∉ afterPolls env := by
  unfold afterPolls
  split_ifs <;> simp

theorem pollPhase_end_all_zero (env : TestEnv) :
    ∀ (polls : List (Int × Int)) (re r : Int),
      Ev.endExposureCall re ∈ pollPhase env polls →
      Ev.pollCall r ∈ pollPhase env polls → r = 0 := by
  intro polls
  induction polls with
  | nil =>
    intro re r hend _
    simp [pollPhase] at hend
  | cons p rest ih =>
    intro re r hend hpoll
    obtain ⟨r0, t⟩ := p
    by_cases hr0 : r0 ≠ 0
    · simp [pollPhase, hr0] at hend
    · push_neg at hr0
      subst hr0
      by_cases ht : t = 0
      · simp [pollPhase, ht] at hend hpoll
        rcases hpoll with h | h
        · exact h
        · exact absurd h (pollCall_not_mem_afterPolls env r)
      · simp [pollPhase, ht] at hend hpoll
        rcases hpoll with h | h
        · exact h
        · exact ih re r hend h

theorem pollPhase_grab_all_zero (env : TestEnv) :
    ∀ (polls : List (Int × Int)) (rg r : Int),
      Ev.grabFrameCall rg ∈ pollPhase env polls →
      Ev.pollCall r ∈ pollPhase env polls → r = 0 := by
  intro polls
  induction polls with
  | nil =>
    intro rg r hgrab _
    simp [pollPhase] at hgrab
  | cons p rest ih =>
    intro rg r hgrab hpoll
    obtain ⟨r0, t⟩ := p
    by_cases hr0 : r0 ≠ 0
    · simp [pollPhase, hr0] at hgrab
    · push_neg at hr0
      subst hr0
      by_cases ht : t = 0
      · simp [pollPhase, ht] at hgrab hpoll
        rcases hpoll with h | h
        · exact h
        · exact absurd h (pollCall_not_mem_afterPolls env r)
      · simp [pollPhase, ht] at hgrab hpoll
        rcases hpoll with h | h
        · exact h
        · exact ih rg r hgrab h

theorem pollPhase_abort (env : TestEnv) :
    ∀ (polls : List (Int × Int)) (r : Int),
      Ev.pollCall r ∈ pollPhase env polls → r ≠ 0 →
      Ev.freeBuf ∈ pollPhase env polls ∧ Ev.closeCall ∈ pollPhase env polls
      ∧ (∀ re, Ev.endExposureCall re ∉ pollPhase env polls)
      ∧ (∀ rg, Ev.grabFrameCall rg ∉ pollPhase env polls) := by
  intro polls
  induction polls with
  | nil =>
    intro r h _
    simp [pollPhase] at h
  | cons p rest ih =>
    intro r hpoll hr
    obtain ⟨r0, t⟩ := p
    by_cases hr0 : r0 ≠ 0
    · refine ⟨?_, ?_, ?_, ?_⟩ <;> simp [pollPhase, hr0]
    · push_neg at hr0
      subst hr0
      by_cases ht : t = 0
      · exfalso
        simp [pollPhase, ht] at hpoll
        rcases hpoll with h | h
        · exact hr h
        · exact pollCall_not_mem_afterPolls env r h
      · simp [pollPhase, ht] at hpoll ⊢
        rcases hpoll with h | h
        · exact absurd h hr
        · exact ih r h hr

theorem pollPhase_complete_grab (env : TestEnv) (hend : 0 ≤ env.endExpRes) :
    ∀ polls, pollsComplete polls = true →
      Ev.grabFrameCall env.grabRes ∈ pollPhase env polls := by
  intro polls
  induction polls with
  | nil =>
    intro h
    simp [pollsComplete] at h
  | cons p rest ih =>
    intro h
    obtain ⟨r0, t⟩ := p
    by_cases hr0 : r0 ≠ 0
    · simp [pollsComplete, hr0] at h
    · push_neg at hr0
      subst hr0
      by_cases ht : t = 0
      · have hnlt : ¬ env.endExpRes < 0 := not_lt.mpr hend
        simp [pollPhase, afterPolls, ht, hnlt]
      · simp [pollsComplete, ht] at h
        simp [pollPhase, ht]
        exact ih h

theorem testBody_shape (env : TestEnv) :
    (∃ l : List Ev, testBody env = l
        ∧ (∀ r, Ev.pollCall r ∉ l) ∧ (∀ re, Ev.endExposureCall re ∉ l)
        ∧ (∀ rg, Ev.grabFrameCall rg ∉ l))
    ∨ (∃ l : List Ev, testBody env = l ++ pollPhase env env.polls
        ∧ (∀ r, Ev.pollCall r ∉ l) ∧ (∀ re, Ev.endExposureCall re ∉ l)
        ∧ (∀ rg, Ev.grabFrameCall rg ∉ l)) := by
  by_cases h1 : env.openRes < 0
  · exact Or.inl ⟨[Ev.openCall env.openRes], by simp [testBody, h1],
      by intro r; simp, by intro re; simp, by intro rg; simp⟩
  by_cases h2 : env.setExpRes < 0
  · exact Or.inl ⟨[Ev.openCall env.openRes, Ev.setExpCall env.setExpRes, Ev.closeCall],
      by simp [testBody, h1, h2],
      by intro r; simp, by intro re; simp, by intro rg; simp⟩
  by_cases h3 : env.setFrameRes < 0
  · exact Or.inl ⟨[Ev.openCall env.openRes, Ev.setExpCall env.setExpRes,
      Ev.setFrameCall env.setFrameRes, Ev.closeCall],
      by simp [testBody, h1, h2, h3],
      by intro r; simp, by intro re; simp, by intro rg; simp⟩
  by_cases h4 : env.getDimRes < 0
  · exact Or.inl ⟨[Ev.openCall env.openRes, Ev.setExpCall env.setExpRes,
      Ev.setFrameCall env.setFrameRes, Ev.getDimsCall env.getDimRes, Ev.closeCall],
      by simp [testBody, h1, h2, h3, h4],
      by intro r; simp, by intro re; simp, by intro rg; simp⟩
  by_cases h5 : env.setAreaRes < 0
  · exact Or.inl ⟨[Ev.openCall env.openRes, Ev.setExpCall env.setExpRes,
      Ev.setFrameCall env.setFrameRes, Ev.getDimsCall env.getDimRes,
      Ev.setAreaCall env.setAreaRes, Ev.closeCall],
      by simp [testBody, h1, h2, h3, h4, h5],
      by intro r; simp, by intro re; simp, by intro rg; simp⟩
  by_cases h6 : env.setHBinRes < 0
  · exact Or.inl ⟨[Ev.openCall env.openRes, Ev.setExpCall env.setExpRes,
      Ev.setFrameCall env.setFrameRes, Ev.getDimsCall env.getDimRes,
      Ev.setAreaCall env.setAreaRes, Ev.setHBinCall env.setHBinRes, Ev.closeCall],
      by simp [testBody, h1, h2, h3, h4, h5, h6],
      by intro r; simp, by intro re; simp, by intro rg; simp⟩
  by_cases h7 : env.setVBinRes < 0
  · exact Or.inl ⟨[Ev.openCall env.openRes, Ev.setExpCall env.setExpRes,
      Ev.setFrameCall env.setFrameRes, Ev.getDimsCall env.getDimRes,
      Ev.setAreaCall env.setAreaRes, Ev.setHBinCall env.setHBinRes,
      Ev.setVBinCall env.setVBinRes, Ev.closeCall],
      by simp [testBody, h1, h2, h3, h4, h5, h6, h7],
      by intro r; simp, by intro re; simp, by intro rg; simp⟩
  by_cases hm : env.mallocOk = false
  · exact Or.inl ⟨[Ev.openCall env.openRes, Ev.setExpCall env.setExpRes,
      Ev.setFrameCall env.setFrameRes, Ev.getDimsCall env.getDimRes,
      Ev.setAreaCall env.setAreaRes, Ev.setHBinCall env.setHBinRes,
      Ev.setVBinCall env.setVBinRes, Ev.closeCall],
      by simp [testBody, h1, h2, h3, h4, h5, h6, h7, hm],
      by intro r; simp, by intro re; simp, by intro rg; simp⟩
  by_cases he : env.exposeRes < 0
  · exact Or.inl ⟨[Ev.openCall env.openRes, Ev.setExpCall env.setExpRes,
      Ev.setFrameCall env.setFrameRes, Ev.getDimsCall env.getDimRes,
      Ev.setAreaCall env.setAreaRes, Ev.setHBinCall env.setHBinRes,
      Ev.setVBinCall env.setVBinRes, Ev.exposeCall env.exposeRes,
      Ev.freeBuf, Ev.closeCall],
      by simp [testBody, h1, h2, h3, h4, h5, h6, h7, hm, he],
      by intro r; simp, by intro re; simp, by intro rg; simp⟩
  · exact Or.inr ⟨[Ev.openCall env.openRes, Ev.setExpCall env.setExpRes,
      Ev.setFrameCall env.setFrameRes, Ev.getDimsCall env.getDimRes,
      Ev.setAreaCall env.setAreaRes, Ev.setHBinCall env.setHBinRes,
      Ev.setVBinCall env.setVBinRes, Ev.exposeCall env.exposeRes],
      by simp [testBody, h1, h2, h3, h4, h5, h6, h7, hm, he],
      by intro r; simp, by intro re; simp, by intro rg; simp⟩

theorem runMain_shape (env : TestEnv) :
    (∃ l : List Ev, runMain env = l ∧ (∀ r, Ev.pollCall r ∉ l)
        ∧ (∀ re, Ev.endExposureCall re ∉ l) ∧ (∀ rg, Ev.grabFrameCall rg ∉ l))
    ∨ (∃ l₁ l₂ : List Ev, runMain env = l₁ ++ (pollPhase env env.polls ++ l₂)
        ∧ (∀ r, Ev.pollCall r ∉ l₁ ∧ Ev.pollCall r ∉ l₂)
        ∧ (∀ re, Ev.endExposureCall re ∉ l₁ ∧ Ev.endExposureCall re ∉ l₂)
        ∧ (∀ rg, Ev.grabFrameCall rg ∉ l₁ ∧ Ev.grabFrameCall rg ∉ l₂)) := by
  by_cases hl : env.listRes < 0
  · exact Or.inl ⟨[Ev.listCall env.listRes], by simp [runMain, hl],
      by intro r; simp, by intro re; simp, by intro rg; simp⟩
  by_cases hc : env.listNames.length > 0
  · rcases testBody_shape env with ⟨l, hbody, hp, he, hg⟩ | ⟨l, hbody, hp, he, hg⟩
    · refine Or.inl ⟨Ev.listCall env.listRes :: (l ++ [Ev.freeList]), ?_, ?_, ?_, ?_⟩
      · simp [runMain, hl, hc, hbody]
      · intro r
        simp [hp r]
      · intro re
        simp [he re]
      · intro rg
        simp [hg rg]
    · refine Or.inr ⟨Ev.listCall env.listRes :: l, [Ev.freeList], ?_, ?_, ?_, ?_⟩
      · simp [runMain, hl, hc, hbody]
      · intro r
        exact ⟨by simp [hp r], by simp⟩
      · intro re
        exact ⟨by simp [he re], by simp⟩
      · intro rg
        exact ⟨by simp [hg rg], by simp⟩
  · exact Or.inl ⟨[Ev.listCall env.listRes, Ev.freeList], by simp [runMain, hl, hc],
      by intro r; simp, by intro re; simp, by intro rg; simp⟩

/-- C9: the example program of test.c reaches the `FLIEndExposure` and
`FLIGrabFrame` calls only if every `FLIGetExposureStatus` poll returned
exactly zero; any nonzero poll return — including a positive value, which the
boundary convention would not classify as an error — aborts the readout path
while still freeing the buffer and closing the handle; and at every other
call site only negative returns are failures, so a run in which every other
call returns a non-negative (possibly positive) value and polling completes
still reaches `FLIGrabFrame`. -/
theorem testc_poll_strictness :
    ∀ (env : TestEnv),
      (∀ re r, Ev.endExposureCall re ∈ runMain env → Ev.pollCall r ∈ runMain env → r = 0)
      ∧ (∀ rg r, Ev.grabFrameCall rg ∈ runMain env → Ev.pollCall r ∈ runMain env → r = 0)
      ∧ (∀ r, Ev.pollCall r ∈ runMain env → r ≠ 0 →
          Ev.freeBuf ∈ runMain env ∧ Ev.closeCall ∈ runMain env
          ∧ (∀ re, Ev.endExposureCall re ∉ runMain env)
          ∧ (∀ rg, Ev.grabFrameCall rg ∉ runMain env))
      ∧ (0 ≤ env.listRes → env.listNames.length > 0 → 0 ≤ env.openRes →
         0 ≤ env.setExpRes → 0 ≤ env.setFrameRes → 0 ≤ env.getDimRes →
         0 ≤ env.setAreaRes → 0 ≤ env.setHBinRes → 0 ≤ env.setVBinRes →
         env.mallocOk = true → 0 ≤ env.exposeRes → pollsComplete env.polls = true →
         0 ≤ env.endExpRes → Ev.grabFrameCall env.grabRes ∈ runMain env) := by
  intro env
  refine ⟨?_, ?_, ?_, ?_⟩
  · intro re r hend hpoll
    rcases runMain_shape env with ⟨l, hrm, hp, he, hg⟩ | ⟨l₁, l₂, hrm, hp, he, hg⟩
    · rw [hrm] at hend
      exact absurd hend (he re)
    · rw [hrm] at hend hpoll
      rcases List.mem_append.mp hpoll with h | h
      · exact absurd h (hp r).1
      rcases List.mem_append.mp h with h' | h'
      · rcases List.mem_append.mp hend with h2 | h2
        · exact absurd h2 (he re).1
        rcases List.mem_append.mp h2 with h3 | h3
        · exact pollPhase_end_all_zero env env.polls re r h3 h'
        · exact absurd h3 (he re).2
      · exact absurd h' (hp r).2
  · intro rg r hgrab hpoll
    rcases runMain_shape env with ⟨l, hrm, hp, he, hg⟩ | ⟨l₁, l₂, hrm, hp, he, hg⟩
    · rw [hrm] at hgrab
      exact absurd hgrab (hg rg)
    · rw [hrm] at hgrab hpoll
      rcases List.mem_append.mp hpoll with h | h
      · exact absurd h (hp r).1
      rcases List.mem_append.mp h with h' | h'
      · rcases List.mem_append.mp hgrab with h2 | h2
        · exact absurd h2 (hg rg).1
        rcases List.mem_append.mp h2 with h3 | h3
        · exact pollPhase_grab_all_zero env env.polls rg r h3 h'
        · exact absurd h3 (hg rg).2
      · exact absurd h' (hp r).2
  · intro r hpoll hr
    rcases runMain_shape env with ⟨l, hrm, hp, he, hg⟩ | ⟨l₁, l₂, hrm, hp, he, hg⟩
    · rw [hrm] at hpoll
      exact absurd hpoll (hp r)
    · rw [hrm] at hpoll ⊢
      have hpp : Ev.pollCall r ∈ pollPhase env env.polls := by
        rcases List.mem_append.mp hpoll with h | h
        · exact absurd h (hp r).1
        rcases List.mem_append.mp h with h' | h'
        · exact h'
        · exact absurd h' (hp r).2
      have habort := pollPhase_abort env env.polls r hpp hr
      refine ⟨?_, ?_, ?_, ?_⟩
      · exact List.mem_append.mpr (Or.inr (List.mem_append.mpr (Or.inl habort.1)))
      · exact List.mem_append.mpr (Or.inr (List.mem_append.mpr (Or.inl habort.2.1)))
      · intro re hmem
        rcases List.mem_append.mp hmem with h | h
        · exact (he re).1 h
        rcases List.mem_append.mp h with h' | h'
        · exact habort.2.2.1 re h'
        · exact (he re).2 h'
      · intro rg hmem
        rcases List.mem_append.mp hmem with h | h
        · exact (hg rg).1 h
        rcases List.mem_append.mp h with h' | h'
        · exact habort.2.2.2 rg h'
        · exact (hg rg).2 h'
  · intro hlr hlen hor hse hsf hgd hsa hhb hvb hm hex hpc her
    have hgrab := pollPhase_complete_grab env her env.polls hpc
    simp [runMain, testBody, not_lt.mpr hlr, hlen, not_lt.mpr hor, not_lt.mpr hse,
      not_lt.mpr hsf, not_lt.mpr hgd, not_lt.mpr hsa, not_lt.mpr hhb, not_lt.mpr hvb,
      hm, not_lt.mpr hex, hgrab]

theorem testc_poll_strictness_witness :
    Ev.grabFrameCall 1 ∈ runMain envW ∧ (0 : Int) = 0 :=
  ⟨(testc_poll_strictness envW).2.2.2 (by decide) (by decide) (by decide) (by decide)
      (by decide) (by decide) (by decide) (by decide) (by decide) (by decide) (by decide)
      (by decide) (by decide),
   (testc_poll_strictness envW).1 1 0 (by decide) (by decide)⟩

end LibFliUsb
